import Mathlib

/-!
Shallow embedding of the rocket-league simulator repository:
* `Visualizer` — `src/rktl_sim/src/visualizer/asset.py` (`Image` asset).
* `Simulator` — `src/rocket_league_simulation/src/simulator/sim.py` (`Sim`).
* `Racersim` — `src/racersim/nodes/sim_node.py` (`RacerSimROS`).

Timestamps, poses and command values are modelled as rationals: the code
only moves these values around, compares them and subtracts them, so the
claims under study do not depend on floating-point rounding.
-/

namespace Visualizer

/-- A pygame surface, modelled syntactically: the visualizer only ever
loads, scales and rotates surfaces, so the surface value records the
chain of operations that produced it (pygame internals are external). -/
inductive Surface where
  | load (img_path : String)
  | scale (s : Surface) (width length : ℚ)
  | rotate (s : Surface) (angle : ℚ)
deriving DecidableEq

/-- The `Image` asset: `Image.__init__` fields (asset.py lines 24-32). -/
structure Image where
  width : ℚ
  length : ℚ
  pos : ℚ × ℚ
  angle : ℚ
  init_img : Surface
  img : Surface
deriving DecidableEq

/-- `Image.__init__(width, length, img_path)`: loads the image, scales it,
and stores the scaled surface as both `init_img` and `img`. -/
def Image.create (width length : ℚ) (img_path : String) : Image :=
  let init_img := Surface.scale (Surface.load img_path) width length
  { width := width, length := length, pos := (0, 0), angle := 0,
    init_img := init_img, img := init_img }

/-- `Image.setPos(x, y)` (asset.py lines 34-35). -/
def Image.setPos (self : Image) (x y : ℚ) : Image :=
  { self with pos := (x, y) }

/-- `Image.setAngle(angle)` (asset.py lines 37-41): negative angles are
normalized by adding 360, and `img` is set to the rotation of the stored
`init_img` (not of the current `img`). The `angle` field is not updated. -/
def Image.setAngle (self : Image) (angle : ℚ) : Image :=
  let angle := if angle < 0 then 360 + angle else angle
  { self with img := Surface.rotate self.init_img angle }

end Visualizer

namespace Simulator

/-- Modelled from the spec: `simulator.car.Car` is imported by sim.py but
is not under src/. Per the spec the backend offers per-body step and
reset, where "Reset restores all tracked bodies to initial pose"; the
dynamics of `step` belong to the external physics engine and are recorded
as a log of received `(throttle, steering, dt)` commands. -/
structure Car where
  carID : Nat
  pose : (ℚ × ℚ × ℚ) × (ℚ × ℚ × ℚ)
  initPose : (ℚ × ℚ × ℚ) × (ℚ × ℚ × ℚ)
  cmds : List ((ℚ × ℚ) × ℚ)
deriving DecidableEq

/-- Modelled from the spec: `Car.step(cmd, dt)` hands the command to the
external engine (logged); engine dynamics are out of scope. -/
def Car.step (self : Car) (cmd : ℚ × ℚ) (dt : ℚ) : Car :=
  { self with cmds := self.cmds ++ [(cmd, dt)] }

/-- Modelled from the spec: `Car.reset()` restores the body to its
initial pose. -/
def Car.reset (self : Car) : Car :=
  { self with pose := self.initPose }

/-- The pybullet client state visible to sim.py: the contact list for the
ball (each entry is the `contact[2]` body id), the ball base pose, and a
counter of `p.stepSimulation()` calls (engine internals are external). -/
structure World where
  contacts : List Nat
  ballPos : ℚ × ℚ × ℚ
  ballOrient : ℚ × ℚ × ℚ
  simSteps : Nat
deriving DecidableEq

/-- `p.stepSimulation()`: advances the external engine (counted). -/
def World.stepSimulation (w : World) : World :=
  { w with simSteps := w.simSteps + 1 }

/-- The `Sim` object of sim.py. Python attributes that some method reads
but no code path ever assigns are modelled as `Option` fields that start
out `none` (reading them then raises `AttributeError`):
* `ballInitPos` / `ballInitOrient` stand for `self._ballInitPos` and
  `self._ballInitOrient`, read by `reset` but never written anywhere;
* `carsAttr` stands for `self.cars`, read by `reset`, while `__init__`
  only ever assigns `self._cars` (the `cars` field here);
* `touchedLast` stands for `self.touchedLast`, assigned only inside
  `step`, while `__init__` and `reset` use `self.touched_last`. -/
structure Sim where
  planeID : Nat
  ballID : Nat
  goalID : Nat
  carID : Nat
  cars : List (Nat × Car)
  touched_last : Option Nat
  touchedLast : Option Nat
  scored : Bool
  running : Bool
  ballInitPos : Option (ℚ × ℚ × ℚ)
  ballInitOrient : Option (ℚ × ℚ × ℚ)
  carsAttr : Option (List Car)
  world : World
deriving DecidableEq

/-- `Sim.__init__(urdf_paths, field_setup, render_enabled)` (sim.py lines
44-79): bodies are loaded in order plane, ball, goal, four walls, car, so
pybullet assigns them ids 0..7; `self._cars` maps the car id to a `Car`;
`touched_last = None`, `scored = False`, `running = True`. Note that no
`_ballInitPos`, `_ballInitOrient`, `cars` or `touchedLast` attribute is
created. -/
def Sim.create (ballSetup _goalSetup carSetup : ℚ × ℚ × ℚ) (w : World) : Sim :=
  { planeID := 0, ballID := 1, goalID := 2, carID := 7,
    cars := [(7, { carID := 7, pose := (carSetup, (0, 0, 0)),
                   initPose := (carSetup, (0, 0, 0)), cmds := [] })],
    touched_last := none, touchedLast := none,
    scored := false, running := true,
    ballInitPos := none, ballInitOrient := none, carsAttr := none,
    world := { w with ballPos := ballSetup, ballOrient := (0, 0, 0) } }

/-- The `for contact in contacts` loop of `Sim.step` (sim.py lines 85-91):
a contact with a tracked car assigns `self.touchedLast`; a contact with
the goal sets `scored`, clears `running` and returns from `step` early
(the returned Bool records that early return). -/
def Sim.scanContacts (s : Sim) : List Nat → Sim × Bool
  | [] => (s, false)
  | c :: rest =>
    if (List.lookup c s.cars).isSome then
      Sim.scanContacts { s with touchedLast := some c } rest
    else if c = s.goalID then
      ({ s with scored := true, running := false }, true)
    else
      Sim.scanContacts s rest

/-- `Sim.step(throttle_cmd, steering_cmd, dt)` (sim.py lines 81-96): if
`running`, scan the ball contacts; unless that scan returned early, step
every car with the command and call `p.stepSimulation()`. If not
`running`, do nothing. -/
def Sim.step (s : Sim) (throttle_cmd steering_cmd dt : ℚ) : Sim :=
  if s.running then
    let scanned := s.scanContacts s.world.contacts
    if scanned.2 then scanned.1
    else
      let s1 := { scanned.1 with
        cars := scanned.1.cars.map
          (fun (kc : Nat × Car) =>
            (kc.1, kc.2.step (throttle_cmd, steering_cmd) dt)) }
      { s1 with world := s1.world.stepSimulation }
  else s

/-- `Sim.reset()` (sim.py lines 112-123). The first three assignments
succeed (`running = False`, `scored = False`, `touched_last = None`);
then `p.resetBasePositionAndOrientation(self._ballID, self._ballInitPos,
self._ballInitOrient)` evaluates `self._ballInitPos`, an attribute never
assigned anywhere, so Python raises `AttributeError` there and the method
aborts with the partial mutations kept. Were those attributes present,
`for car in self.cars` would next read `self.cars`, also never assigned
(`__init__` sets `self._cars`). The result pairs the post-state with the
error, if any, mirroring that Python keeps mutations made before a raise. -/
def Sim.reset (s : Sim) : Sim × Option String :=
  let s := { s with running := false, scored := false, touched_last := none }
  match s.ballInitPos, s.ballInitOrient with
  | some bp, some bo =>
    let s := { s with world := { s.world with ballPos := bp, ballOrient := bo } }
    match s.carsAttr with
    | some cs =>
      ({ s with carsAttr := some (cs.map Car.reset), running := true }, none)
    | none => (s, some "AttributeError: Sim object has no attribute cars")
  | _, _ => (s, some "AttributeError: Sim object has no attribute _ballInitPos")

end Simulator

namespace Racersim

/-- Modelled from the spec: `racersim.Sim`, the Box2D backend imported by
sim_node.py, is not under src/. Per the spec it is an external
collaborator exposing `step(control, dt)` plus pose/velocity snapshots
for the car, ball and goal bodies; `step` hands the received
`(linear, angular, dt)` control to the engine (logged here — engine
dynamics are out of scope), and the snapshot getters return the current
read-only pose data. -/
structure RSim where
  steps : List (ℚ × ℚ × ℚ)
  ballPoint : ℚ × ℚ
  carPoint : ℚ × ℚ
  goalPoint : ℚ × ℚ
  carQuat : ℚ × ℚ × ℚ × ℚ
  carLinVel : ℚ × ℚ
  carAngVel : ℚ × ℚ
deriving DecidableEq

/-- Modelled from the spec: `racersim.Sim.step(linear, angular, dt)`
receives the control; its physics belong to the external engine. -/
def RSim.step (sim : RSim) (linear angular dt : ℚ) : RSim :=
  { sim with steps := sim.steps ++ [(linear, angular, dt)] }

/-- The three publishers created in `RacerSimROS.__init__` (sim_node.py
lines 62-66): `ball_pub` on topic `ball_pose`, `bot_pub` on `bot_odom`,
`goal_pub` on `goal_pose`. -/
inductive Topic where
  | ballPose
  | botOdom
  | goalPose
deriving DecidableEq

/-- An outbound message, as assembled by `loop_once`:
* `poseCov` — the `PoseWithCovarianceStamped` for the ball (stamp,
  `frame_id` assigned directly on the message object, position x/y);
* `odom` — the bot `Odometry` (stamp, frame id, position, quaternion w/z
  components, linear and angular velocity pairs);
* `pointMsg` — what is published for the goal: the stamped message built
  first is discarded by `goal_msg = self.sim.goal.getPoint()` (line 129),
  so the published value derives from the goal point alone. -/
inductive PubMsg where
  | poseCov (stamp : ℚ) (frame_id : String) (x y : ℚ)
  | odom (stamp : ℚ) (frame_id : String) (x y qw qz : ℚ)
      (lin ang : ℚ × ℚ)
  | pointMsg (x y : ℚ)
deriving DecidableEq

/-- The `RacerSimROS` node state (sim_node.py lines 42-76): the lock, the
last stored command triple `(stamp, linear.x, angular.z)`, the last tick
time, the configured frame id and command timeout, the backend sim, and
a log of `(topic, message)` pairs passed to `publish`. -/
structure RacerSimROS where
  lockHeld : Bool
  last_command : Option (ℚ × ℚ × ℚ)
  last_time : Option ℚ
  frame_id : String
  timeout : ℚ
  sim : RSim
  published : List (Topic × PubMsg)
deriving DecidableEq

/-- `RacerSimROS.command_cb(command_msg)` (sim_node.py lines 78-81):
stores `(rospy.Time.now(), linear.x, angular.z)` as one tuple — a single
atomic assignment. The callback contains no lock operation: it neither
acquires `self.lock` nor waits for it, so it runs to completion and
performs its write whatever the lock state is. -/
def command_cb (self : RacerSimROS) (now linear_x angular_z : ℚ) :
    RacerSimROS :=
  { self with last_command := some (now, linear_x, angular_z) }

/-- `RacerSimROS.loop_once()` (sim_node.py lines 83-135). The body runs
between `self.lock.acquire()` and `self.lock.release()`; since a tick is
modelled as one atomic transition, the lock is free again when it ends
(`lockHeld` is net unchanged). `now = rospy.Time.now()` is the tick
timestamp. If `last_time` is set: when a command is stored, step the sim
with `(0, 0)` if `(now - last_command_time) >= timeout` else with the
stored `(linear, angular)`, with `delta_t = now - last_time`; then
publish the ball pose, the bot odometry, and the goal message — the
latter through `self.ball_pub` (line 132), so it goes to the `ball_pose`
topic and `goal_pub` is never used. In every case `last_time` is set to
`now` at the end. -/
def loop_once (self : RacerSimROS) (now : ℚ) : RacerSimROS :=
  match self.last_time with
  | some last_time =>
    let s1 :=
      match self.last_command with
      | some lc =>
        let delta_t := now - last_time
        if now - lc.1 ≥ self.timeout then
          { self with sim := self.sim.step 0 0 delta_t }
        else
          { self with sim := self.sim.step lc.2.1 lc.2.2 delta_t }
      | none => self
    let ball_msg := PubMsg.poseCov now s1.frame_id
      s1.sim.ballPoint.1 s1.sim.ballPoint.2
    let bot_msg := PubMsg.odom now s1.frame_id
      s1.sim.carPoint.1 s1.sim.carPoint.2
      s1.sim.carQuat.1 s1.sim.carQuat.2.2.2
      s1.sim.carLinVel s1.sim.carAngVel
    let goal_msg := PubMsg.pointMsg s1.sim.goalPoint.1 s1.sim.goalPoint.2
    { s1 with
      published := s1.published ++
        [(Topic.ballPose, ball_msg), (Topic.botOdom, bot_msg),
         (Topic.ballPose, goal_msg)],
      last_time := some now }
  | none => { self with last_time := some now }

/-- One atomic action on the shared node state: a command callback (whose
tuple assignment is atomic) or one tick of the loop. -/
inductive Action where
  | cmd (t linear angular : ℚ)
  | tick (now : ℚ)

/-- Apply one action to the node state. -/
def applyAction (s : RacerSimROS) : Action → RacerSimROS
  | Action.cmd t linear angular => command_cb s t linear angular
  | Action.tick now => loop_once s now

/-- Run an interleaving of callbacks and ticks. -/
def run (s : RacerSimROS) (tr : List Action) : RacerSimROS :=
  tr.foldl applyAction s

/-- A concrete backend snapshot used by the concrete scenarios below. -/
def rsim0 : RSim :=
  { steps := [], ballPoint := (0, 0), carPoint := (0, 0),
    goalPoint := (0, 0), carQuat := (1, 0, 0, 0),
    carLinVel := (0, 0), carAngVel := (0, 0) }

/-- A node that has already ticked once (at time 0) and holds the command
`(stamp 0, linear 1, angular 0)`, with the default timeout of 1 second:
the scenario of spec section 8. -/
def node0 : RacerSimROS :=
  { lockHeld := false, last_command := some (0, 1, 0), last_time := some 0,
    frame_id := "sim", timeout := 1, sim := rsim0, published := [] }

/-- A freshly started node: no tick yet, no command yet. -/
def nodeFresh : RacerSimROS :=
  { lockHeld := false, last_command := none, last_time := none,
    frame_id := "sim", timeout := 1, sim := rsim0, published := [] }

/-- A node that has ticked once but has never received a command. -/
def nodeNoCmd : RacerSimROS :=
  { lockHeld := false, last_command := none, last_time := some 0,
    frame_id := "sim", timeout := 1, sim := rsim0, published := [] }

/-- A node state observed at an instant when the step loop holds the
lock (mid-tick), no command stored yet. -/
def nodeLocked : RacerSimROS :=
  { lockHeld := true, last_command := none, last_time := some 0,
    frame_id := "sim", timeout := 1, sim := rsim0, published := [] }

end Racersim

namespace Simulator

/-- A pybullet world in which the only ball contact is with the car
(body id 7). -/
def wCar : World :=
  { contacts := [7], ballPos := (0, 0, 0), ballOrient := (0, 0, 0),
    simSteps := 0 }

/-- A freshly constructed sim whose ball currently touches the car. -/
def simCar : Sim := Sim.create (0, 0, 0) (1, 1, 0) (2, 2, 0) wCar

/-- A freshly constructed sim whose ball currently touches the goal
(body id 2). -/
def simGoal : Sim :=
  Sim.create (0, 0, 0) (1, 1, 0) (2, 2, 0) { wCar with contacts := [2] }

end Simulator


/-! ## Helper lemmas -/

namespace Racersim

/-- Every tick ends with `last_time = now` (sim_node.py line 134 runs
unconditionally). -/
theorem loop_once_last_time (s : RacerSimROS) (now : ℚ) :
    (loop_once s now).last_time = some now := by
  cases h : s.last_time <;> cases h2 : s.last_command <;>
    simp [loop_once, h, h2]

/-- A tick never modifies the stored command. -/
theorem loop_once_last_command (s : RacerSimROS) (now : ℚ) :
    (loop_once s now).last_command = s.last_command := by
  cases h : s.last_time with
  | none => simp [loop_once, h]
  | some lt =>
    cases h2 : s.last_command with
    | none => simp [loop_once, h, h2]
    | some lc =>
      simp only [loop_once, h, h2]
      split <;> simp [h2]

/-- On a tick with a previous tick time and a stored command, exactly one
control is handed to the backend: the zero command when stale, the stored
one otherwise, with `dt = now - last_time` either way. -/
theorem loop_once_steps_append (s : RacerSimROS) (now lt tc lin ang : ℚ)
    (ht : s.last_time = some lt) (hc : s.last_command = some (tc, lin, ang)) :
    (loop_once s now).sim.steps =
      s.sim.steps ++
        [if now - tc ≥ s.timeout then ((0 : ℚ), (0 : ℚ), now - lt)
         else (lin, ang, now - lt)] := by
  simp only [loop_once, ht, hc]
  split <;> simp [RSim.step]

end Racersim

/-! ## Claims -/

namespace Racersim

/-- Claim C1: on a tick at time `now` with a previous tick recorded and a
stored command `(tc, lin, ang)`, the backend `step` receives `(0, 0)` when
`now - tc ≥ timeout` and the stored `(lin, ang)` unchanged when
`now - tc < timeout`; in both cases the age is computed from the tick
timestamp `now`. -/
theorem loop_once_command_decay (s : RacerSimROS) (now lt tc lin ang : ℚ)
    (ht : s.last_time = some lt) (hc : s.last_command = some (tc, lin, ang)) :
    (now - tc ≥ s.timeout →
      (loop_once s now).sim.steps = s.sim.steps ++ [((0 : ℚ), (0 : ℚ), now - lt)]) ∧
    (now - tc < s.timeout →
      (loop_once s now).sim.steps = s.sim.steps ++ [(lin, ang, now - lt)]) := by
  constructor <;> intro hage <;>
    rw [loop_once_steps_append s now lt tc lin ang ht hc]
  · rw [if_pos hage]
  · rw [if_neg (not_le.mpr hage)]

/-- Witness for C1: the spec section 8 scenario. The command is written
at t = 0 with timeout 1; a tick at t = 1/20 is fresh, so the backend
receives `(1, 0)` with `dt = 1/20`; a tick at t = 6/5 is stale, so the
backend receives `(0, 0)` with `dt = 6/5`. -/
theorem loop_once_command_decay_witness :
    (loop_once node0 (1/20)).sim.steps =
        node0.sim.steps ++ [((1 : ℚ), (0 : ℚ), (1/20 : ℚ) - 0)] ∧
    (loop_once node0 (6/5)).sim.steps =
        node0.sim.steps ++ [((0 : ℚ), (0 : ℚ), (6/5 : ℚ) - 0)] :=
  ⟨(loop_once_command_decay node0 (1/20) 0 0 1 0 rfl rfl).2 (by norm_num [node0]),
   (loop_once_command_decay node0 (6/5) 0 0 1 0 rfl rfl).1 (by norm_num [node0])⟩

/-- Claim C2 counter-evidence: on a tick after the first, three messages
are indeed published, but their topics are `ball_pose`, `bot_odom`,
`ball_pose`: the goal message is published through `self.ball_pub`
(sim_node.py line 132), so the `goal_pose` topic receives nothing and
`goal_pub` goes unused, contradicting the intended one-topic-per-body
wiring declared in `__init__` (lines 62-66). -/
theorem goal_published_on_ball_topic :
    (loop_once node0 2).published.map Prod.fst =
        [Topic.ballPose, Topic.botOdom, Topic.ballPose] ∧
    Topic.goalPose ∉ (loop_once node0 2).published.map Prod.fst := by
  norm_num [loop_once, RSim.step, node0, rsim0]
  decide

/-- Claim C3: on the first tick (`last_time` is `None`) the node only
records the timestamp: the backend is not stepped, nothing is published,
and no other field changes. -/
theorem first_tick_records_time (s : RacerSimROS) (now : ℚ)
    (h : s.last_time = none) :
    loop_once s now = { s with last_time := some now } := by
  simp [loop_once, h]

/-- Witness for C3 at a freshly started node. -/
theorem first_tick_records_time_witness :
    loop_once nodeFresh 5 = { nodeFresh with last_time := some 5 } :=
  first_tick_records_time nodeFresh 5 rfl

/-- Claim C6: for consecutive ticks at times `t1 < t2`, whatever the
state before the tick at `t1` (it may be the first tick, or one without a
command), the tick at `t2` hands the backend a control with
`dt = t2 - t1` exactly, whenever a command is stored. -/
theorem consecutive_ticks_dt (s : RacerSimROS) (t1 t2 tc lin ang : ℚ)
    (_h12 : t1 < t2) (hc : s.last_command = some (tc, lin, ang)) :
    ∃ l a, (loop_once (loop_once s t1) t2).sim.steps =
      (loop_once s t1).sim.steps ++ [(l, a, t2 - t1)] := by
  have ht1 : (loop_once s t1).last_time = some t1 := loop_once_last_time s t1
  have hc1 : (loop_once s t1).last_command = some (tc, lin, ang) :=
    (loop_once_last_command s t1).trans hc
  by_cases hage : t2 - tc ≥ (loop_once s t1).timeout
  · exact ⟨0, 0, by
      rw [loop_once_steps_append _ t2 t1 tc lin ang ht1 hc1, if_pos hage]⟩
  · exact ⟨lin, ang, by
      rw [loop_once_steps_append _ t2 t1 tc lin ang ht1 hc1, if_neg hage]⟩

/-- Witness for C6: ticks at t = 1 and t = 2 around the stored command of
`node0` yield a step with `dt = 2 - 1`. -/
theorem consecutive_ticks_dt_witness :
    ∃ l a, (loop_once (loop_once node0 1) 2).sim.steps =
      (loop_once node0 1).sim.steps ++ [(l, a, (2 : ℚ) - 1)] :=
  consecutive_ticks_dt node0 1 2 0 1 0 (by norm_num) rfl

/-- Claim C8: a tick after the first with no stored command leaves the
backend untouched (no `step` call, poses unchanged), still publishes its
three messages, and records `last_time = now`; the embedded tick is a
total function, so the tick completes without error. -/
theorem no_command_tick (s : RacerSimROS) (now lt : ℚ)
    (ht : s.last_time = some lt) (hc : s.last_command = none) :
    (loop_once s now).sim = s.sim ∧
    (loop_once s now).published.length = s.published.length + 3 ∧
    (loop_once s now).last_time = some now := by
  simp [loop_once, ht, hc]

/-- Witness for C8 at a node that ticked once but never got a command. -/
theorem no_command_tick_witness :
    (loop_once nodeNoCmd 3).sim = nodeNoCmd.sim ∧
    (loop_once nodeNoCmd 3).published.length = nodeNoCmd.published.length + 3 ∧
    (loop_once nodeNoCmd 3).last_time = some 3 :=
  no_command_tick nodeNoCmd 3 0 rfl rfl

/-- Claim C9 counterexample: the command callback is not guarded by the
lock. From a state in which the step loop holds the lock (`lockHeld` is
true), the callback still runs to completion and its write lands — it
never acquires (or waits for) the lock, whose state it leaves untouched.
Had the write been lock-guarded as claimed, it could not complete while
the lock was held by the loop. -/
theorem command_cb_unguarded :
    (command_cb nodeLocked 5 1 2).last_command = some (5, 1, 2) ∧
    (command_cb nodeLocked 5 1 2).lockHeld = true ∧
    nodeLocked.lockHeld = true :=
  ⟨rfl, rfl, rfl⟩

/-- Claim C9 amended: the lock brackets the tick body only; command
writes are unguarded but each one replaces the whole `(t, linear,
angular)` tuple in a single atomic assignment, so under any interleaving
of callbacks and ticks the loop can only ever observe either the
original stored command or the complete triple of some callback — never
a torn mixture. -/
theorem no_torn_command (s0 : RacerSimROS) (tr : List Action) :
    (run s0 tr).last_command = s0.last_command ∨
    ∃ t l a, Action.cmd t l a ∈ tr ∧
      (run s0 tr).last_command = some (t, l, a) := by
  induction tr generalizing s0 with
  | nil => exact Or.inl rfl
  | cons x tr ih =>
    cases x with
    | cmd t l a =>
      rcases ih (applyAction s0 (Action.cmd t l a)) with h | ⟨t2, l2, a2, hm, he⟩
      · refine Or.inr ⟨t, l, a, List.mem_cons_self _ _, ?_⟩
        calc (run s0 (Action.cmd t l a :: tr)).last_command
            = (run (applyAction s0 (Action.cmd t l a)) tr).last_command := rfl
          _ = (applyAction s0 (Action.cmd t l a)).last_command := h
          _ = some (t, l, a) := rfl
      · exact Or.inr ⟨t2, l2, a2, List.mem_cons_of_mem _ hm, he⟩
    | tick now =>
      rcases ih (applyAction s0 (Action.tick now)) with h | ⟨t2, l2, a2, hm, he⟩
      · refine Or.inl ?_
        calc (run s0 (Action.tick now :: tr)).last_command
            = (run (applyAction s0 (Action.tick now)) tr).last_command := rfl
          _ = (applyAction s0 (Action.tick now)).last_command := h
          _ = s0.last_command := loop_once_last_command s0 now
      · exact Or.inr ⟨t2, l2, a2, List.mem_cons_of_mem _ hm, he⟩

end Racersim

namespace Simulator

/-- Claim C4 counter-evidence: for any simulator whose `_ballInitPos`
attribute does not exist — which is every simulator the code can build,
since no code path ever assigns it — `reset` raises `AttributeError`
instead of restoring poses: the ball pose (and the whole world) is left
untouched, and because the partial mutations made before the raise are
kept, the sim is left with `running = False` and is permanently halted,
the opposite of the claimed post-state. -/
theorem reset_raises (s : Sim) (h : s.ballInitPos = none) :
    (s.reset).2 = some "AttributeError: Sim object has no attribute _ballInitPos" ∧
    (s.reset).1.running = false ∧
    (s.reset).1.world = s.world := by
  simp [Sim.reset, h]

/-- Witness for the C4 counter-evidence at a freshly constructed sim:
`Sim.create` leaves `ballInitPos` unassigned, so the very first `reset`
already raises and halts the sim. -/
theorem reset_raises_witness :
    (simCar.reset).2 = some "AttributeError: Sim object has no attribute _ballInitPos" ∧
    (simCar.reset).1.running = false ∧
    (simCar.reset).1.world = simCar.world :=
  reset_raises simCar rfl

/-- Claim C5: once `running` is cleared (as the goal-contact branch of
`step` does when a score is detected), every further `step` call is an
exact no-op on the whole simulator state — no car stepping, no
`p.stepSimulation()`, no flag change — until a reset. -/
theorem step_halted (s : Sim) (throttle_cmd steering_cmd dt : ℚ)
    (h : s.running = false) :
    Sim.step s throttle_cmd steering_cmd dt = s := by
  simp [Sim.step, h]

/-- Witness for C5: a sim whose ball touches the goal scores on the next
`step` (clearing `running`), and the `step` after that changes nothing. -/
theorem step_halted_witness :
    Sim.step (Sim.step simGoal 1 0 (1/10)) 0 0 1 = Sim.step simGoal 1 0 (1/10) :=
  step_halted (Sim.step simGoal 1 0 (1/10)) 0 0 1
    (by norm_num [Sim.step, Sim.scanContacts, Sim.create, simGoal, wCar])

/-- Claim C7 counter-evidence: stepping a running sim whose ball touches
the tracked car writes the car id into the `touchedLast` attribute (the
typo in sim.py line 87) while the `touched_last` field — the one
`__init__` and `reset` use — keeps its old value `None`. -/
theorem touchedLast_typo :
    (Sim.step simCar 1 0 (1/100)).touchedLast = some simCar.carID ∧
    (Sim.step simCar 1 0 (1/100)).touched_last = none ∧
    simCar.running = true := by
  norm_num [Sim.step, Sim.scanContacts, Sim.create, World.stepSimulation,
    Car.step, simCar, wCar]

end Simulator

namespace Visualizer

/-- Claim C10: `setAngle` always rotates the stored `init_img`, never the
current `img`, so a second `setAngle` with the same angle leaves the
image exactly as after the first: rotation is idempotent, not
cumulative. -/
theorem setAngle_idempotent (img : Image) (a : ℚ) :
    (img.setAngle a).setAngle a = img.setAngle a ∧
    (img.setAngle a).img =
      Surface.rotate img.init_img (if a < 0 then 360 + a else a) := by
  constructor <;> simp [Image.setAngle]

end Visualizer
